import Mathlib

/-!
Verification of the control-protocol engine and transport of the `claude-rs`
repository.  The Rust sources (`src/transport.rs`, `src/query.rs`,
`src/message_parser.rs`, `src/hooks.rs`, `src/client.rs`, `src/types.rs`,
`src/errors.rs`) are shallowly embedded: pure functions become Lean functions,
stateful code becomes explicit state passing, spawned effects are recorded in
event lists, and external IO outcomes are supplied as oracle arguments.
JSON numbers are modelled as integers (no property proved here involves
fractional numbers); JSON objects are association lists whose key lookup
returns the first binding, matching `serde_json::Map` under its unique-key
invariant.
-/

namespace ClaudeRs

/-- Embeds `serde_json::Value` as consumed by the engine. -/
inductive JVal where
  | null
  | bool (b : Bool)
  | num (n : Int)
  | str (s : String)
  | arr (xs : List JVal)
  | obj (fields : List (String × JVal))

/-- Embeds `serde_json::Map::get`: lookup of a key in an object's field list. -/
def lookupField : List (String × JVal) → String → Option JVal
  | [], _ => none
  | (k, v) :: rest, key => if k = key then some v else lookupField rest key

/-- Embeds `Value::get` (returns `None` on non-objects). -/
def JVal.get? : JVal → String → Option JVal
  | .obj fs, k => lookupField fs k
  | _, _ => none

/-- Embeds `Value::as_str`. -/
def JVal.asStr : JVal → Option String
  | .str s => some s
  | _ => none

/-- Embeds `Value::as_bool`. -/
def JVal.asBool : JVal → Option Bool
  | .bool b => some b
  | _ => none

/-- Embeds `Value::as_i64` (numbers are modelled as integers; the `i64` range check
    is kept). -/
def JVal.asI64 : JVal → Option Int
  | .num n => if -(2 ^ 63) ≤ n ∧ n < 2 ^ 63 then some n else none
  | _ => none

/-- Embeds `Value::as_f64` on the integer-number model. -/
def JVal.asF64 : JVal → Option Int
  | .num n => some n
  | _ => none

/-- Embeds `Value::as_array`. -/
def JVal.asArr : JVal → Option (List JVal)
  | .arr xs => some xs
  | _ => none

/-- Embeds `Value::as_object`. -/
def JVal.asObj : JVal → Option (List (String × JVal))
  | .obj fs => some fs
  | _ => none

/-- Embeds `Value::is_object`. -/
def JVal.isObject : JVal → Bool
  | .obj _ => true
  | _ => false

/-- The ASCII digit character for a decimal digit. -/
def digitChar (d : Nat) : Char := Char.ofNat (48 + d)

/-- Fuel-bounded most-significant-first decimal digit rendering. -/
def decCharsAux : Nat → Nat → List Char
  | 0, _ => []
  | fuel + 1, n =>
    if n < 10 then [digitChar n]
    else decCharsAux fuel (n / 10) ++ [digitChar (n % 10)]

/-- Decimal rendering of an unsigned integer, as Rust's `Display` for `u64`
    (used by `format!` in `Query::send_control_request`).  `n + 1` units of
    fuel always suffice because a number has at most `n + 1` digits. -/
def rustDec (n : Nat) : String := ⟨decCharsAux (n + 1) n⟩

/-- Decimal decoding, the left inverse used to prove `rustDec` injective. -/
def undecChars (l : List Char) : Nat :=
  l.foldl (fun a c => a * 10 + (c.toNat - 48)) 0

/-- Rust's `Display` for `i32` (sign, then decimal digits). -/
def intDec (i : Int) : String :=
  if i < 0 then "-" ++ rustDec i.natAbs else rustDec i.toNat

/-- Rust's `Debug` rendering of an `Option<i32>` exit code. -/
def optCodeRepr : Option Int → String
  | none => "None"
  | some c => "Some(" ++ intDec c ++ ")"

/-- Embeds `ClaudeSDKError` (`src/errors.rs`). -/
inductive ClaudeSDKError where
  | CLIConnectionError (msg : String)
  | CLINotFoundError (message : String) (cli_path : Option String)
  | ProcessError (message : String) (exit_code : Option Int) (stderr : Option String)
  | CLIJSONDecodeError (line : String) (original_error : String)
  | MessageParseError (message : String) (data : Option JVal)

/-- Embeds `ClaudeSDKError::cli_connection_error`. -/
def cli_connection_error (msg : String) : ClaudeSDKError :=
  .CLIConnectionError msg

/-- Embeds `ClaudeSDKError::process_error`. -/
def process_error (message : String) (exit_code : Option Int)
    (stderr : Option String) : ClaudeSDKError :=
  .ProcessError message exit_code stderr

/-- Embeds `ClaudeSDKError::json_decode_error`. -/
def json_decode_error (line original_error : String) : ClaudeSDKError :=
  .CLIJSONDecodeError line original_error

/-- Embeds `ClaudeSDKError::message_parse_error`. -/
def message_parse_error (message : String) (data : Option JVal) : ClaudeSDKError :=
  .MessageParseError message data

/-- Embeds `Result<T>` from `src/errors.rs`. -/
abbrev RsResult (α : Type) := Except ClaudeSDKError α

lemma digitChar_toNat {d : Nat} (h : d < 10) : (digitChar d).toNat = 48 + d := by
  interval_cases d <;> decide

lemma undecChars_append_single (l : List Char) (c : Char) :
    undecChars (l ++ [c]) = undecChars l * 10 + (c.toNat - 48) := by
  simp [undecChars, List.foldl_append]

lemma undecChars_decCharsAux : ∀ fuel n, n < fuel →
    undecChars (decCharsAux fuel n) = n := by
  intro fuel
  induction fuel with
  | zero => intro n hn; omega
  | succ fuel ih =>
    intro n hn
    by_cases h : n < 10
    · simp only [decCharsAux, if_pos h]
      show undecChars ([] ++ [digitChar n]) = n
      rw [undecChars_append_single, digitChar_toNat h]
      simp [undecChars]
    · have hpos : 0 < n := by omega
      have hdiv : n / 10 < fuel := by
        have h1 : n / 10 < n := Nat.div_lt_self hpos (by omega)
        omega
      simp only [decCharsAux, if_neg h]
      rw [undecChars_append_single, ih _ hdiv,
        digitChar_toNat (Nat.mod_lt n (by omega))]
      omega

lemma rustDec_injective : Function.Injective rustDec := by
  intro a b hab
  have hdata : decCharsAux (a + 1) a = decCharsAux (b + 1) b := by
    have := congrArg String.data hab
    simpa [rustDec] using this
  have ha := undecChars_decCharsAux (a + 1) a (by omega)
  have hb := undecChars_decCharsAux (b + 1) b (by omega)
  rw [← ha, ← hb, hdata]

lemma string_append_left_cancel {p s t : String} (h : p ++ s = p ++ t) :
    s = t := by
  have hdata : p.data ++ s.data = p.data ++ t.data := by
    have := congrArg String.data h
    simpa using this
  have hst : s.data = t.data := List.append_cancel_left hdata
  cases s; cases t; exact congrArg String.mk hst

/-- Embeds `ContentBlock` (`src/types.rs`).  Tool-use inputs keep the association-list
    object model. -/
inductive ContentBlock where
  | Text (text : String)
  | Thinking (thinking : String) (signature : String)
  | ToolUse (id : String) (name : String) (input : List (String × JVal))
  | ToolResult (tool_use_id : String) (content : Option JVal) (is_error : Option Bool)

/-- Embeds `UserMessageContent` (`src/types.rs`). -/
inductive UserMessageContent where
  | Text (s : String)
  | Blocks (bs : List ContentBlock)

/-- Embeds `UserMessage` (`src/types.rs`). -/
structure UserMessage where
  content : UserMessageContent
  parent_tool_use_id : Option String

/-- Embeds `AssistantMessage` (`src/types.rs`). -/
structure AssistantMessage where
  content : List ContentBlock
  model : String
  parent_tool_use_id : Option String

/-- Embeds `SystemMessage` (`src/types.rs`). -/
structure SystemMessage where
  subtype : String
  data : List (String × JVal)

/-- Truncation of an integer to Rust's `i32`, for the `as i32` cast in
    `parse_result_message`. -/
def toI32 (n : Int) : Int := (n + 2 ^ 31).emod (2 ^ 32) - 2 ^ 31

/-- Embeds `ResultMessage` (`src/types.rs`); `total_cost_usd` keeps the integer
    number model. -/
structure ResultMessage where
  subtype : String
  duration_ms : Int
  duration_api_ms : Int
  is_error : Bool
  num_turns : Int
  session_id : String
  total_cost_usd : Option Int
  usage : Option (List (String × JVal))
  result : Option String

/-- Embeds `StreamEvent` (`src/types.rs`). -/
structure StreamEvent where
  uuid : String
  session_id : String
  event : List (String × JVal)
  parent_tool_use_id : Option String

/-- Embeds `Message` (`src/types.rs`). -/
inductive Message where
  | User (m : UserMessage)
  | Assistant (m : AssistantMessage)
  | System (m : SystemMessage)
  | Result (m : ResultMessage)
  | Stream (m : StreamEvent)

/-- Embeds `parse_content_block` (`src/message_parser.rs`). -/
def parse_content_block (block : JVal) (data : JVal) : RsResult ContentBlock :=
  match block.asObj with
  | none => .error (message_parse_error
      "Invalid content block type (expected object)" (some data))
  | some block_obj =>
    match (lookupField block_obj "type").bind JVal.asStr with
    | none => .error (message_parse_error
        "Content block missing 'type' field" (some data))
    | some block_type =>
      if block_type = "text" then
        match (lookupField block_obj "text").bind JVal.asStr with
        | none => .error (message_parse_error
            "Text block missing 'text' field" (some data))
        | some text => .ok (.Text text)
      else if block_type = "thinking" then
        match (lookupField block_obj "thinking").bind JVal.asStr with
        | none => .error (message_parse_error
            "Thinking block missing 'thinking' field" (some data))
        | some thinking =>
          match (lookupField block_obj "signature").bind JVal.asStr with
          | none => .error (message_parse_error
              "Thinking block missing 'signature' field" (some data))
          | some signature => .ok (.Thinking thinking signature)
      else if block_type = "tool_use" then
        match (lookupField block_obj "id").bind JVal.asStr with
        | none => .error (message_parse_error
            "Tool use block missing 'id' field" (some data))
        | some id =>
          match (lookupField block_obj "name").bind JVal.asStr with
          | none => .error (message_parse_error
              "Tool use block missing 'name' field" (some data))
          | some name =>
            match (lookupField block_obj "input").bind JVal.asObj with
            | none => .error (message_parse_error
                "Tool use block missing or invalid 'input' field" (some data))
            | some input => .ok (.ToolUse id name input)
      else if block_type = "tool_result" then
        match (lookupField block_obj "tool_use_id").bind JVal.asStr with
        | none => .error (message_parse_error
            "Tool result block missing 'tool_use_id' field" (some data))
        | some tool_use_id =>
          let content := lookupField block_obj "content"
          let is_error := (lookupField block_obj "is_error").bind JVal.asBool
          .ok (.ToolResult tool_use_id content is_error)
      else
        .error (message_parse_error
          ("Unknown content block type: " ++ block_type) (some data))

/-- The `for block in arr` accumulation loops of `parse_user_message` and
    `parse_assistant_message`: the first failing block aborts. -/
def parseBlocks (arr : List JVal) (data : JVal) : RsResult (List ContentBlock) :=
  match arr with
  | [] => .ok []
  | block :: rest =>
    match parse_content_block block data with
    | .error e => .error e
    | .ok b =>
      match parseBlocks rest data with
      | .error e => .error e
      | .ok bs => .ok (b :: bs)

/-- Embeds `parse_user_message` (`src/message_parser.rs`). -/
def parse_user_message (obj : List (String × JVal)) (data : JVal) :
    RsResult Message :=
  match lookupField obj "message" with
  | none => .error (message_parse_error
      "Missing required field in user message: message" (some data))
  | some msgv =>
    match msgv.asObj with
    | none => .error (message_parse_error "Invalid message field type" (some data))
    | some message =>
      let parent_tool_use_id := (lookupField obj "parent_tool_use_id").bind JVal.asStr
      match lookupField message "content" with
      | none => .error (message_parse_error
          "Missing required field in user message: content" (some data))
      | some content_val =>
        match content_val.asArr with
        | some arr =>
          match parseBlocks arr data with
          | .error e => .error e
          | .ok blocks => .ok (.User ⟨.Blocks blocks, parent_tool_use_id⟩)
        | none =>
          match content_val.asStr with
          | some text => .ok (.User ⟨.Text text, parent_tool_use_id⟩)
          | none => .error (message_parse_error
              "Invalid content type in user message" (some data))

/-- Embeds `parse_assistant_message` (`src/message_parser.rs`). -/
def parse_assistant_message (obj : List (String × JVal)) (data : JVal) :
    RsResult Message :=
  match lookupField obj "message" with
  | none => .error (message_parse_error
      "Missing required field in assistant message: message" (some data))
  | some msgv =>
    match msgv.asObj with
    | none => .error (message_parse_error "Invalid message field type" (some data))
    | some message =>
      match (lookupField message "content").bind JVal.asArr with
      | none => .error (message_parse_error
          "Missing or invalid content field in assistant message" (some data))
      | some content_arr =>
        match parseBlocks content_arr data with
        | .error e => .error e
        | .ok content_blocks =>
          match (lookupField message "model").bind JVal.asStr with
          | none => .error (message_parse_error
              "Missing required field in assistant message: model" (some data))
          | some model =>
            let parent_tool_use_id :=
              (lookupField obj "parent_tool_use_id").bind JVal.asStr
            .ok (.Assistant ⟨content_blocks, model, parent_tool_use_id⟩)

/-- Embeds `parse_system_message` (`src/message_parser.rs`). -/
def parse_system_message (obj : List (String × JVal)) (data : JVal) :
    RsResult Message :=
  match (lookupField obj "subtype").bind JVal.asStr with
  | none => .error (message_parse_error
      "Missing required field in system message: subtype" (some data))
  | some subtype => .ok (.System ⟨subtype, obj⟩)

/-- Embeds `parse_result_message` (`src/message_parser.rs`). -/
def parse_result_message (obj : List (String × JVal)) (data : JVal) :
    RsResult Message :=
  match (lookupField obj "subtype").bind JVal.asStr with
  | none => .error (message_parse_error
      "Missing required field in result message: subtype" (some data))
  | some subtype =>
    match (lookupField obj "duration_ms").bind JVal.asI64 with
    | none => .error (message_parse_error
        "Missing required field in result message: duration_ms" (some data))
    | some duration_ms =>
      match (lookupField obj "duration_api_ms").bind JVal.asI64 with
      | none => .error (message_parse_error
          "Missing required field in result message: duration_api_ms" (some data))
      | some duration_api_ms =>
        match (lookupField obj "is_error").bind JVal.asBool with
        | none => .error (message_parse_error
            "Missing required field in result message: is_error" (some data))
        | some is_error =>
          match (lookupField obj "num_turns").bind JVal.asI64 with
          | none => .error (message_parse_error
              "Missing required field in result message: num_turns" (some data))
          | some num_turns =>
            match (lookupField obj "session_id").bind JVal.asStr with
            | none => .error (message_parse_error
                "Missing required field in result message: session_id" (some data))
            | some session_id =>
              let total_cost_usd := (lookupField obj "total_cost_usd").bind JVal.asF64
              let usage := (lookupField obj "usage").bind JVal.asObj
              let result := (lookupField obj "result").bind JVal.asStr
              .ok (.Result ⟨subtype, duration_ms, duration_api_ms, is_error,
                toI32 num_turns, session_id, total_cost_usd, usage, result⟩)

/-- Embeds `parse_stream_event` (`src/message_parser.rs`). -/
def parse_stream_event (obj : List (String × JVal)) (data : JVal) :
    RsResult Message :=
  match (lookupField obj "uuid").bind JVal.asStr with
  | none => .error (message_parse_error
      "Missing required field in stream_event message: uuid" (some data))
  | some uuid =>
    match (lookupField obj "session_id").bind JVal.asStr with
    | none => .error (message_parse_error
        "Missing required field in stream_event message: session_id" (some data))
    | some session_id =>
      match (lookupField obj "event").bind JVal.asObj with
      | none => .error (message_parse_error
          "Missing required field in stream_event message: event" (some data))
      | some event =>
        let parent_tool_use_id := (lookupField obj "parent_tool_use_id").bind JVal.asStr
        .ok (.Stream ⟨uuid, session_id, event, parent_tool_use_id⟩)

/-- The type-name string used by `parse_message` for non-object inputs. -/
def jvalKindName : JVal → String
  | .null => "null"
  | .bool _ => "bool"
  | .num _ => "number"
  | .str _ => "string"
  | .arr _ => "array"
  | .obj _ => "object"

/-- Embeds `parse_message` (`src/message_parser.rs`). -/
def parse_message (data : JVal) : RsResult Message :=
  match data.asObj with
  | none => .error (message_parse_error
      ("Invalid message data type (expected object, got " ++ jvalKindName data ++ ")")
      (some data))
  | some obj =>
    match (lookupField obj "type").bind JVal.asStr with
    | none => .error (message_parse_error "Message missing 'type' field" (some data))
    | some message_type =>
      if message_type = "user" then parse_user_message obj data
      else if message_type = "assistant" then parse_assistant_message obj data
      else if message_type = "system" then parse_system_message obj data
      else if message_type = "result" then parse_result_message obj data
      else if message_type = "stream_event" then parse_stream_event obj data
      else .error (message_parse_error
        ("Unknown message type: " ++ message_type) (some data))

/-- Embeds `ControlResponseType` (`src/types.rs`). -/
inductive ControlResponseType where
  | Success (request_id : String) (response : Option (List (String × JVal)))
  | Error (request_id : String) (error : String)

/-- Embeds `SDKControlResponse` (`src/types.rs`). -/
structure SDKControlResponse where
  type : String
  response : ControlResponseType

/-- Embeds `ControlRequest` (`src/types.rs`).  The `Initialize` variant is named
    `InitializeRequest` here. -/
inductive ControlRequest where
  | Interrupt
  | CanUseTool (tool_name : String) (input : List (String × JVal))
      (permission_suggestions : Option (List JVal)) (blocked_path : Option String)
  | InitializeRequest (hooks : Option (List (String × JVal)))
  | SetPermissionMode (mode : String)
  | HookCallback (callback_id : String) (input : JVal) (tool_use_id : Option String)
  | McpMessage (server_name : String) (message : JVal)

/-- Embeds `SDKControlRequest` (`src/types.rs`). -/
structure SDKControlRequest where
  type : String
  request_id : String
  request : ControlRequest

/-- Serde decoding of a required `String` field. -/
def reqStringField (fs : List (String × JVal)) (k : String) : Option String :=
  (lookupField fs k).bind JVal.asStr

/-- Serde decoding of an `Option<String>` field: missing or `null` is `None`,
    a string is `Some`, anything else fails. -/
def optStringField (fs : List (String × JVal)) (k : String) :
    Option (Option String) :=
  match lookupField fs k with
  | none => some none
  | some .null => some none
  | some (.str s) => some (some s)
  | some _ => none

/-- Serde decoding of an `Option<HashMap<String, Value>>` field. -/
def optMapField (fs : List (String × JVal)) (k : String) :
    Option (Option (List (String × JVal))) :=
  match lookupField fs k with
  | none => some none
  | some .null => some none
  | some (.obj m) => some (some m)
  | some _ => none

/-- Serde decoding of an `Option<Vec<Value>>` field. -/
def optArrField (fs : List (String × JVal)) (k : String) :
    Option (Option (List JVal)) :=
  match lookupField fs k with
  | none => some none
  | some .null => some none
  | some (.arr xs) => some (some xs)
  | some _ => none

/-- Embeds `serde_json::from_value::<ControlResponseType>`: internally tagged by
    `subtype`. -/
def decodeControlResponseType (v : JVal) : Option ControlResponseType :=
  match v.asObj with
  | none => none
  | some fs =>
    match reqStringField fs "subtype" with
    | some "success" =>
      match reqStringField fs "request_id" with
      | none => none
      | some rid =>
        match optMapField fs "response" with
        | none => none
        | some payload => some (.Success rid payload)
    | some "error" =>
      match reqStringField fs "request_id" with
      | none => none
      | some rid =>
        match reqStringField fs "error" with
        | none => none
        | some err => some (.Error rid err)
    | _ => none

/-- Embeds `serde_json::from_value::<SDKControlResponse>`. -/
def decodeSDKControlResponse (v : JVal) : Option SDKControlResponse :=
  match v.asObj with
  | none => none
  | some fs =>
    match reqStringField fs "type" with
    | none => none
    | some t =>
      match lookupField fs "response" with
      | none => none
      | some rv => (decodeControlResponseType rv).map (fun ct => ⟨t, ct⟩)

/-- Embeds `serde_json::from_value::<ControlRequest>`: internally tagged by
    `subtype`. -/
def decodeControlRequest (v : JVal) : Option ControlRequest :=
  match v.asObj with
  | none => none
  | some fs =>
    match reqStringField fs "subtype" with
    | some "interrupt" => some .Interrupt
    | some "can_use_tool" =>
      match reqStringField fs "tool_name" with
      | none => none
      | some tool_name =>
        match (lookupField fs "input").bind JVal.asObj with
        | none => none
        | some input =>
          match optArrField fs "permission_suggestions" with
          | none => none
          | some ps =>
            match optStringField fs "blocked_path" with
            | none => none
            | some bp => some (.CanUseTool tool_name input ps bp)
    | some "initialize" =>
      match optMapField fs "hooks" with
      | none => none
      | some hooks => some (.InitializeRequest hooks)
    | some "set_permission_mode" =>
      match reqStringField fs "mode" with
      | none => none
      | some mode => some (.SetPermissionMode mode)
    | some "hook_callback" =>
      match reqStringField fs "callback_id" with
      | none => none
      | some cid =>
        match lookupField fs "input" with
        | none => none
        | some input =>
          match optStringField fs "tool_use_id" with
          | none => none
          | some tuid => some (.HookCallback cid input tuid)
    | some "mcp_message" =>
      match reqStringField fs "server_name" with
      | none => none
      | some sn =>
        match lookupField fs "message" with
        | none => none
        | some msg => some (.McpMessage sn msg)
    | _ => none

/-- Embeds `serde_json::from_value::<SDKControlRequest>`. -/
def decodeSDKControlRequest (v : JVal) : Option SDKControlRequest :=
  match v.asObj with
  | none => none
  | some fs =>
    match reqStringField fs "type" with
    | none => none
    | some t =>
      match reqStringField fs "request_id" with
      | none => none
      | some rid =>
        match lookupField fs "request" with
        | none => none
        | some rv => (decodeControlRequest rv).map (fun cr => ⟨t, rid, cr⟩)

/-- The child process as the transport sees it (`tokio::process::Child`).
    `exitStatus = some code` models `try_wait()` returning `Ok(Some(status))`
    with `status.code() = code`; `none` models a still-running child (or a
    `try_wait` failure, which the source ignores).  `stdoutLines` are the
    remaining newline-delimited records on the child's standard output. -/
structure ChildProc where
  exitStatus : Option (Option Int)
  stdoutLines : List String

/-- The mutable state of `SubprocessTransport` (`src/transport.rs`):
    the `ready` flag, the optional `stdin` write handle, and the optional
    child-process handle.  `stdinBuf` records every byte written to the
    child's standard input and `flushes` counts successful flushes, so
    theorems can speak about what reached the process. -/
structure TransportState where
  ready : Bool
  hasStdin : Bool
  process : Option ChildProc
  stdinBuf : String
  flushes : Nat

/-- A freshly constructed transport (`SubprocessTransport::new`): not
    connected, no process, no stdin handle. -/
def TransportState.initial : TransportState :=
  ⟨false, false, none, "", 0⟩

/-- IO oracle for one `write` call: `none` means the corresponding
    `write_all`/`flush` on the child's stdin succeeds, `some e` means it
    fails with OS error text `e`. -/
structure WriteIO where
  writeErr : Option String
  flushErr : Option String

/-- Both stdin operations succeed. -/
def WriteIO.ok : WriteIO := ⟨none, none⟩

/-- The `if let Some(ref mut process) = self.process` + `try_wait` check of
    `write`: the observed exit status when a process handle is held. -/
def tryWaitExit : Option ChildProc → Option (Option Int)
  | some p => p.exitStatus
  | none => none

/-- Embeds `SubprocessTransport::write` (`src/transport.rs` lines 166-209), checks in
    source order: the `ready` flag, stdin availability, `try_wait` on the
    process, then `write_all` and `flush` (each of which clears `ready` on
    failure). -/
def SubprocessTransport.write (s : TransportState) (data : String)
    (io : WriteIO) : RsResult Unit × TransportState :=
  if !s.ready then
    (.error (cli_connection_error "Transport is not ready for writing"), s)
  else if !s.hasStdin then
    (.error (cli_connection_error "Stdin not available for writing"), s)
  else
    match tryWaitExit s.process with
    | some code =>
      (.error (process_error
        ("Cannot write to terminated process (exit code: " ++ optCodeRepr code ++ ")")
        code none), s)
    | none =>
      match io.writeErr with
      | some e =>
        (.error (cli_connection_error ("Failed to write to process stdin: " ++ e)),
         { s with ready := false })
      | none =>
        let s1 := { s with stdinBuf := s.stdinBuf ++ data }
        match io.flushErr with
        | some e =>
          (.error (cli_connection_error ("Failed to flush stdin: " ++ e)),
           { s1 with ready := false })
        | none => (.ok (), { s1 with flushes := s1.flushes + 1 })

/-- Embeds `SubprocessTransport::connect`: no-op when a process exists, otherwise
    spawn (the spawn outcome is the oracle `spawn`). -/
def SubprocessTransport.connect (s : TransportState)
    (spawn : Option ChildProc) : RsResult Unit × TransportState :=
  if s.process.isSome then (.ok (), s)
  else
    match spawn with
    | none =>
      (.error (cli_connection_error "Failed to spawn Claude Code: spawn failed"), s)
    | some child =>
      (.ok (), { s with hasStdin := true, process := some child, ready := true })

/-- Embeds `SubprocessTransport::end_input`: takes and shuts down the stdin handle. -/
def SubprocessTransport.end_input (s : TransportState) :
    RsResult Unit × TransportState :=
  (.ok (), { s with hasStdin := false })

/-- Embeds `SubprocessTransport::close`: clears `ready`, takes the process handle and,
    when one was held, kills and waits on it.  The third component records
    whether a kill/wait was performed. -/
def SubprocessTransport.close (s : TransportState) :
    RsResult Unit × TransportState × Bool :=
  (.ok (), { s with ready := false, process := none }, s.process.isSome)

/-- Embeds `SubprocessTransport::is_ready`. -/
def SubprocessTransport.is_ready (s : TransportState) : Bool := s.ready

/-- The per-line body of `read_messages`: trim, skip blank lines, decode via
    `serde_json::from_str` (supplied as the external decoder `fromStr`, which
    returns either a value or the decoder's error text). -/
def readLines (fromStr : String → Except String JVal) :
    List String → List (RsResult JVal)
  | [] => []
  | line :: rest =>
    let t := line.trim
    if t = "" then readLines fromStr rest
    else
      match fromStr t with
      | .ok v => .ok v :: readLines fromStr rest
      | .error e => .error (json_decode_error t e) :: readLines fromStr rest

/-- Embeds `SubprocessTransport::read_messages` (`src/transport.rs` lines 218-251):
    takes the process handle out of the transport (`self.process.take()`) and
    drains its stdout into a sequence of decode results. -/
def SubprocessTransport.read_messages (fromStr : String → Except String JVal)
    (s : TransportState) : List (RsResult JVal) × TransportState :=
  (match s.process with
   | none => []
   | some p => readLines fromStr p.stdoutLines,
   { s with process := none })

/-- The payload the reader sends into a fulfilled reply slot on a success
    response: `response.map(|r| json!(r)).unwrap_or(json!(\x7b\x7d))`
    (`src/query.rs` lines 189-191). -/
def successPayload : Option (List (String × JVal)) → JVal
  | some m => .obj m
  | none => .obj []

/-- Embeds `HashMap::remove` on the pending-response table, modelled on an
    association list with at most one binding per key: returns the removed
    slot (if any) and the remaining table. -/
def tableRemove : List (String × Nat) → String → Option Nat × List (String × Nat)
  | [], _ => (none, [])
  | (k, v) :: rest, key =>
    if k = key then (some v, rest)
    else
      let (r, rest2) := tableRemove rest key
      (r, (k, v) :: rest2)

/-- The observable state of the engine's background reader task
    (`Query::start`, `src/query.rs` lines 164-296):
    * `pending` — the `pending_responses` table, correlation id to the
      oneshot sender it holds (senders are named by `Nat` slot ids);
    * `fulfilled` — every `tx.send(..)` performed on a oneshot sender, in
      order;
    * `messages` — every item sent on `message_tx`, in order (the receiver is
      assumed alive: an unbounded channel's `send` only fails when the
      receiver is dropped);
    * `dispatches` — every `can_use_tool` permission task spawned, as
      (request id, tool name);
    * `stopped` — whether the reader loop has exited via `break`. -/
structure ReaderState where
  pending : List (String × Nat)
  fulfilled : List (Nat × RsResult JVal)
  messages : List (RsResult Message)
  dispatches : List (String × String)
  stopped : Bool

/-- The `"control_response"` arm of the reader loop (`src/query.rs` lines
    183-202): decode the envelope (skipping it when decoding fails), remove
    the matching pending entry and fulfil its slot — with the success payload
    (or the empty object) on `success`, with a connection error carrying the
    error text on `error`; an unmatched `request_id` changes nothing. -/
def readerCtrlResponse (s : ReaderState) (v : JVal) : ReaderState :=
  match decodeSDKControlResponse v with
  | none => s
  | some ctrl =>
    match ctrl.response with
    | .Success rid payload =>
      let (slot, rest) := tableRemove s.pending rid
      match slot with
      | none => s
      | some tx =>
        { s with pending := rest,
                 fulfilled := s.fulfilled ++ [(tx, .ok (successPayload payload))] }
    | .Error rid err =>
      let (slot, rest) := tableRemove s.pending rid
      match slot with
      | none => s
      | some tx =>
        { s with pending := rest,
                 fulfilled := s.fulfilled ++
                   [(tx, .error (cli_connection_error err))] }

/-- The `"control_request"` arm of the reader loop (`src/query.rs` lines
    203-268): decode (skipping on failure); a `can_use_tool` request with a
    registered permission callback spawns a dispatch task; every other
    subtype is ignored. -/
def readerCtrlRequest (canUseToolSet : Bool) (s : ReaderState) (v : JVal) :
    ReaderState :=
  match decodeSDKControlRequest v with
  | none => s
  | some ctrl =>
    match ctrl.request with
    | .CanUseTool tool_name _ _ _ =>
      if canUseToolSet then
        { s with dispatches := s.dispatches ++ [(ctrl.request_id, tool_name)] }
      else s
    | _ => s

/-- The plain-message arm of the reader loop (`src/query.rs` lines 273-284):
    parse and forward; a parse failure is forwarded and breaks the loop. -/
def readerPlain (s : ReaderState) (v : JVal) : ReaderState :=
  match parse_message v with
  | .ok m => { s with messages := s.messages ++ [.ok m] }
  | .error e =>
    { s with messages := s.messages ++ [.error e], stopped := true }

/-- One iteration of the reader loop of `Query::start` on one item of the
    transport's stream (`src/query.rs` lines 177-291).  `canUseToolSet`
    records whether a permission callback was registered
    (`self.can_use_tool.is_some()`). -/
def readerStep (canUseToolSet : Bool) (s : ReaderState)
    (item : RsResult JVal) : ReaderState :=
  if s.stopped then s
  else
    match item with
    | .error e => { s with messages := s.messages ++ [.error e], stopped := true }
    | .ok v =>
      match (v.get? "type").bind JVal.asStr with
      | some msg_type =>
        if msg_type = "control_response" then readerCtrlResponse s v
        else if msg_type = "control_request" then
          readerCtrlRequest canUseToolSet s v
        else readerPlain s v
      | none => readerPlain s v

/-- The reader loop run over a whole input sequence. -/
def readerRun (canUseToolSet : Bool) (s : ReaderState)
    (items : List (RsResult JVal)) : ReaderState :=
  items.foldl (readerStep canUseToolSet) s

/-- The reader state at engine start: empty table, nothing delivered. -/
def ReaderState.initial : ReaderState := ⟨[], [], [], [], false⟩

/-- The engine-side state touched by `Query::send_control_request`
    (`src/query.rs` lines 322-357): the `request_counter` (a `u64`, protected
    by a mutex, so concurrent invocations serialize), the
    `pending_responses` table, a supply of fresh oneshot slot names, and the
    lines written to the transport. -/
structure EngineState where
  counter : Nat
  pending : List (String × Nat)
  nextSlot : Nat
  writes : List JVal

/-- A fresh engine (`Query::new`): counter zero, empty table. -/
def EngineState.initial : EngineState := ⟨0, [], 0, []⟩

/-- The two externally visible effects of one `send_control_request`, in the
    order the source performs them. -/
inductive SendEvent where
  | insertSlot (request_id : String)
  | writeLine (envelope : JVal)

/-- The control envelope `json!(\x7btype, request_id, request\x7d)` built by
    `send_control_request`. -/
def controlEnvelope (request_id : String) (request : JVal) : JVal :=
  .obj [("type", .str "control_request"), ("request_id", .str request_id),
        ("request", request)]

/-- Embeds `Query::send_control_request`, up to the await: allocate the next
    correlation id from the counter (`u64` arithmetic, hence the `% 2^64`),
    register the reply slot in the pending table, then serialize and write
    the envelope.  Returns the new state, the allocated id, and the effect
    trace in source order. -/
def send_control_request (st : EngineState) (request : JVal) :
    EngineState × String × List SendEvent :=
  let c := (st.counter + 1) % 2 ^ 64
  let request_id := "req_" ++ rustDec c
  let st1 := { st with counter := c,
                       pending := st.pending ++ [(request_id, st.nextSlot)],
                       nextSlot := st.nextSlot + 1 }
  let env := controlEnvelope request_id request
  let st2 := { st1 with writes := st1.writes ++ [env] }
  (st2, request_id,
   [.insertSlot request_id, .writeLine env])

/-- What the oneshot receiver of a control request eventually observes:
    `none` if the reader never fulfils the slot, or `some (t, r)` if the slot
    is fulfilled at time `t` seconds with payload `r` (`r = none` models the
    sender being dropped, closing the channel). -/
abbrev ReplyOracle := Option (Nat × Option (RsResult JVal))

/-- The three ways `tokio::time::timeout(30s, rx).await` can resolve. -/
inductive AwaitOutcome where
  | fulfilled (r : RsResult JVal)
  | timedOut
  | channelClosed

/-- The outcome of the 30-second race in `send_control_request`
    (`src/query.rs` lines 352-357). -/
def awaitOutcome (ev : ReplyOracle) : AwaitOutcome :=
  match ev with
  | none => .timedOut
  | some (t, payload) =>
    if t ≤ 30 then
      match payload with
      | none => .channelClosed
      | some r => .fulfilled r
    else .timedOut

/-- The value `send_control_request` returns to its caller for a given await
    outcome, mirroring the two `map_err` calls. -/
def awaitReply (ev : ReplyOracle) : RsResult JVal :=
  match awaitOutcome ev with
  | .fulfilled r => r
  | .timedOut => .error (cli_connection_error "Control request timeout")
  | .channelClosed => .error (cli_connection_error "Response channel closed")

/-- The whole of `send_control_request`: send, then await.  The await phase
    performs no state mutation — in particular the timeout branch does not
    touch the pending table. -/
def sendAndAwait (st : EngineState) (request : JVal) (ev : ReplyOracle) :
    EngineState × RsResult JVal :=
  let (st2, _, _) := send_control_request st request
  (st2, awaitReply ev)

/-- Sequential issuance of a batch of control requests (the mutex on the
    counter serializes concurrent callers, so any interleaving is one of
    these orders); returns the final state and the allocated ids in order. -/
def sendMany (st : EngineState) : List JVal → EngineState × List String
  | [] => (st, [])
  | r :: rest =>
    let (st1, rid, _) := send_control_request st r
    let (st2, rids) := sendMany st1 rest
    (st2, rid :: rids)

/-- Embeds `HookContext` (`src/types.rs`). -/
structure HookContext where
  signal : Option String

/-- Embeds `HookJSONOutput` (`src/types.rs`). -/
structure HookJSONOutput where
  decision : Option String
  system_message : Option String
  hook_specific_output : Option JVal

/-- A hook callback (`HookCallback` in `src/hooks.rs`): an async closure from
    (input data, tool-use id, context) to a result, modelled as a function. -/
abbrev HookCallbackFn :=
  List (String × JVal) → Option String → HookContext → RsResult HookJSONOutput

/-- Generic association-list lookup (first binding wins), the model of
    `HashMap::get` for non-`JVal` values. -/
def assocLookup {α : Type} : List (String × α) → String → Option α
  | [], _ => none
  | (k, v) :: rest, key => if k = key then some v else assocLookup rest key

/-- Embeds `HookRegistry` (`src/hooks.rs`). -/
structure HookRegistry where
  callbacks : List (String × HookCallbackFn)
  next_id : Nat

/-- Embeds `HookRegistry::new`. -/
def HookRegistry.empty : HookRegistry := ⟨[], 0⟩

/-- Embeds `HookRegistry::register`: ids `hook_0`, `hook_1`, ... in registration
    order. -/
def HookRegistry.register (r : HookRegistry) (cb : HookCallbackFn) :
    HookRegistry × String :=
  let id := "hook_" ++ rustDec r.next_id
  (⟨r.callbacks ++ [(id, cb)], r.next_id + 1⟩, id)

/-- Embeds `HookRegistry::get`. -/
def HookRegistry.get (r : HookRegistry) (id : String) : Option HookCallbackFn :=
  assocLookup r.callbacks id

/-- Embeds `HookMatcherConfig` (`src/hooks.rs`). -/
structure HookMatcherConfig where
  matcher : String
  callback_ids : List String

/-- Embeds `HookMatcherConfig::matches` (`src/hooks.rs` lines 102-108). -/
def HookMatcherConfig.matches (c : HookMatcherConfig) (tool_name : String) :
    Bool :=
  if c.matcher = "*" then true
  else c.matcher = tool_name

/-- Embeds `HookManager` (`src/hooks.rs`): the registry plus, per event name, the
    matchers in the order `add_matcher` appended them. -/
structure HookManager where
  registry : HookRegistry
  matchers : List (String × List HookMatcherConfig)

/-- Embeds `self.matchers.entry(event).or_insert_with(Vec::new).push(matcher)`. -/
def addMatcherList : List (String × List HookMatcherConfig) → String →
    HookMatcherConfig → List (String × List HookMatcherConfig)
  | [], event, m => [(event, [m])]
  | (k, v) :: rest, event, m =>
    if k = event then (k, v ++ [m]) :: rest
    else (k, v) :: addMatcherList rest event m

/-- Embeds `HookManager::add_matcher`. -/
def HookManager.add_matcher (mgr : HookManager) (event : String)
    (m : HookMatcherConfig) : HookManager :=
  { mgr with matchers := addMatcherList mgr.matchers event m }

/-- Embeds `HookManager::find_matching_callbacks` (`src/hooks.rs` lines 151-163):
    exact event lookup, then every matching matcher's callback ids in order. -/
def HookManager.find_matching_callbacks (mgr : HookManager)
    (event tool_name : String) : List String :=
  match assocLookup mgr.matchers event with
  | none => []
  | some ms =>
    ms.foldl
      (fun acc m => if m.matches tool_name then acc ++ m.callback_ids else acc) []

/-- The callback loop of `execute_hooks`: unknown ids are skipped, the first
    callback error aborts via `?`, outputs are pushed in execution order. -/
def executeCallbackList (mgr : HookManager) (ids : List String)
    (input : List (String × JVal)) (tuid : Option String) (ctx : HookContext) :
    RsResult (List HookJSONOutput) :=
  match ids with
  | [] => .ok []
  | id :: rest =>
    match mgr.registry.get id with
    | none => executeCallbackList mgr rest input tuid ctx
    | some cb =>
      match cb input tuid ctx with
      | .error e => .error e
      | .ok out =>
        match executeCallbackList mgr rest input tuid ctx with
        | .error e => .error e
        | .ok outs => .ok (out :: outs)

/-- Embeds `HookManager::execute_hooks` (`src/hooks.rs` lines 166-185). -/
def HookManager.execute_hooks (mgr : HookManager) (event tool_name : String)
    (input : List (String × JVal)) (tuid : Option String) (ctx : HookContext) :
    RsResult (List HookJSONOutput) :=
  executeCallbackList mgr (mgr.find_matching_callbacks event tool_name)
    input tuid ctx

/-- Embeds `matches!(msg, Message::Result(_))` in `ResponseStream::poll_next`. -/
def isResultMsg : Message → Bool
  | .Result _ => true
  | _ => false

/-- Embeds `ResponseStream` (`src/client.rs` lines 411-440): the `terminated` flag
    plus the engine's outbound channel, modelled as the list of items the
    channel will deliver before closing. -/
structure ResponseStreamState where
  terminated : Bool
  chan : List (RsResult Message)

/-- Embeds `ResponseStream::poll_next` on a channel that is ready: yields the next
    item (or end-of-stream) and the successor state. -/
def ResponseStream.poll_next (s : ResponseStreamState) :
    Option (RsResult Message) × ResponseStreamState :=
  if s.terminated then (none, s)
  else
    match s.chan with
    | [] => (none, { s with terminated := true })
    | .ok m :: rest =>
      (some (.ok m), { terminated := isResultMsg m, chan := rest })
    | .error e :: rest => (some (.error e), { s with chan := rest })

/-- Polling the stream to exhaustion (fuel-bounded; `chan.length + 1` polls
    always suffice). -/
def ResponseStream.collectAux : Nat → ResponseStreamState →
    List (RsResult Message)
  | 0, _ => []
  | fuel + 1, s =>
    match ResponseStream.poll_next s with
    | (none, _) => []
    | (some x, s2) => x :: ResponseStream.collectAux fuel s2

/-- Every item a fresh `ResponseStream` yields over a channel delivering
    `items` and then closing. -/
def ResponseStream.collect (items : List (RsResult Message)) :
    List (RsResult Message) :=
  ResponseStream.collectAux (items.length + 1) ⟨false, items⟩

/-- Modelled from the spec: the response-scoped stream yields the channel's
    items unchanged up to and including the first `Result`-kind message (error
    items pass through), then ends.  This is the spec-side comparator for the
    refinement claim about `ResponseStream`. -/
def specResponseScopedItems : List (RsResult Message) → List (RsResult Message)
  | [] => []
  | .ok m :: rest =>
    if isResultMsg m then [.ok m] else .ok m :: specResponseScopedItems rest
  | .error e :: rest => .error e :: specResponseScopedItems rest

/-- Whether a result is the transport's process-exit failure
    (`ClaudeSDKError::ProcessError`). -/
def isProcErrResult {α : Type} : RsResult α → Bool
  | .error (.ProcessError _ _ _) => true
  | _ => false

/-- Whether a result is any failure. -/
def isErrResult {α : Type} : RsResult α → Bool
  | .error _ => true
  | .ok _ => false

/-- Claim C5 counterexample: on a connected, ready transport with a live
    process, `write "abc"` sends exactly the bytes `"abc"` to the child's
    stdin — not `"abc"` followed by a newline as the claim states. -/
theorem C5_counterexample :
    (SubprocessTransport.write ⟨true, true, some ⟨none, []⟩, "", 0⟩ "abc"
      WriteIO.ok).2.stdinBuf = "abc"
    ∧ "abc" ≠ "abc" ++ "\n" := by
  exact ⟨rfl, by decide⟩

/-- Claim C5 (amended): for every string `line` and every connected, ready
    transport with a live process, `write line` appends exactly the bytes of
    `line` to the child's standard input — with no trailing newline added by
    `write` itself (callers append the newline before calling) — and then
    flushes. -/
theorem C5_write_exact_bytes (s : TransportState) (line : String)
    (hready : s.ready = true) (hstdin : s.hasStdin = true)
    (halive : tryWaitExit s.process = none) :
    (SubprocessTransport.write s line WriteIO.ok).1 = .ok ()
    ∧ (SubprocessTransport.write s line WriteIO.ok).2.stdinBuf = s.stdinBuf ++ line
    ∧ (SubprocessTransport.write s line WriteIO.ok).2.flushes = s.flushes + 1 := by
  simp [SubprocessTransport.write, hready, hstdin, halive, WriteIO.ok]

/-- Witness for C5's amended theorem at a concrete ready transport. -/
theorem C5_write_exact_bytes_witness :
    ((⟨true, true, some ⟨none, []⟩, "", 0⟩ : TransportState).ready = true)
    ∧ (SubprocessTransport.write ⟨true, true, some ⟨none, []⟩, "", 0⟩ "x"
        WriteIO.ok).2.stdinBuf = "" ++ "x" := by
  exact ⟨rfl,
    (C5_write_exact_bytes ⟨true, true, some ⟨none, []⟩, "", 0⟩ "x" rfl rfl rfl).2.1⟩

/-- Claim C6 counterexample: a transport that was connected, relinquished its
    stdin handle via `end_input`, and whose child then exited with code 1, is
    a state where the child has already exited yet `write` fails with a
    stdin-unavailable connection error, not with `ProcessError` carrying
    exit code 1. -/
theorem C6_counterexample :
    (SubprocessTransport.write ⟨true, false, some ⟨some (some 1), []⟩, "", 0⟩
      "data" WriteIO.ok).1
      = .error (cli_connection_error "Stdin not available for writing")
    ∧ isProcErrResult (SubprocessTransport.write
        ⟨true, false, some ⟨some (some 1), []⟩, "", 0⟩ "data" WriteIO.ok).1
      = false := by
  exact ⟨rfl, rfl⟩

/-- Claim C6 (amended): `write` fails with the not-ready connection error
    whenever the ready flag is down (which holds for a never-connected
    transport and after `close`), and fails with `ProcessError` carrying the
    child's exit code whenever the transport still holds both the stdin
    handle and the process handle and the child has exited; in both failure
    cases no bytes are written to the child's standard input.  (If stdin was
    relinquished by `end_input`, a stdin-unavailable connection error is
    returned instead, and if `read_messages` already took the process handle
    the exit check is skipped.) -/
theorem C6_write_failure_modes (s : TransportState) (data : String)
    (io : WriteIO) :
    (s.ready = false →
      (SubprocessTransport.write s data io).1
        = .error (cli_connection_error "Transport is not ready for writing")
      ∧ (SubprocessTransport.write s data io).2.stdinBuf = s.stdinBuf)
    ∧ (∀ p code, s.ready = true → s.hasStdin = true → s.process = some p →
        p.exitStatus = some code →
      (SubprocessTransport.write s data io).1
        = .error (process_error
            ("Cannot write to terminated process (exit code: "
              ++ optCodeRepr code ++ ")") code none)
      ∧ (SubprocessTransport.write s data io).2.stdinBuf = s.stdinBuf)
    ∧ TransportState.initial.ready = false
    ∧ (SubprocessTransport.close s).2.1.ready = false := by
  refine ⟨?_, ?_, rfl, rfl⟩
  · intro h
    simp [SubprocessTransport.write, h]
  · intro p code h1 h2 hp hc
    simp [SubprocessTransport.write, tryWaitExit, h1, h2, hp, hc]

/-- Witness for C6's amended theorem: the never-connected transport fails
    not-ready; a connected transport whose child exited with code 1 fails
    with `ProcessError` carrying exit code 1. -/
theorem C6_write_failure_modes_witness :
    (TransportState.initial.ready = false)
    ∧ (SubprocessTransport.write TransportState.initial "x" WriteIO.ok).1
        = .error (cli_connection_error "Transport is not ready for writing")
    ∧ (SubprocessTransport.write ⟨true, true, some ⟨some (some 1), []⟩, "", 0⟩
        "x" WriteIO.ok).1
        = .error (process_error
            "Cannot write to terminated process (exit code: Some(1))"
            (some 1) none) := by
  refine ⟨rfl,
    ((C6_write_failure_modes TransportState.initial "x" WriteIO.ok).1 rfl).1, ?_⟩
  have h := ((C6_write_failure_modes ⟨true, true, some ⟨some (some 1), []⟩, "", 0⟩
    "x" WriteIO.ok).2.1 ⟨some (some 1), []⟩ (some 1) rfl rfl rfl rfl).1
  have hmsg : "Cannot write to terminated process (exit code: "
      ++ optCodeRepr (some 1) ++ ")"
      = "Cannot write to terminated process (exit code: Some(1))" := by decide
  rw [hmsg] at h
  exact h

/-- Claim C7 counterexample: on a connected transport whose child has exited,
    `write` returns an error (the process-exit error) yet `is_ready()` is
    still `true` afterwards — the failing write did not transition the
    transport to not-ready. -/
theorem C7_counterexample :
    isErrResult (SubprocessTransport.write
      ⟨true, true, some ⟨some (some 1), []⟩, "", 0⟩ "x" WriteIO.ok).1 = true
    ∧ SubprocessTransport.is_ready (SubprocessTransport.write
        ⟨true, true, some ⟨some (some 1), []⟩, "", 0⟩ "x" WriteIO.ok).2 = true := by
  exact ⟨rfl, rfl⟩

/-- Claim C7 (amended): after any failing `write` every subsequent `write`
    also fails (no automatic reconnection exists), but the transport is moved
    to the not-ready state only when the failure came from the stdin
    `write_all`/`flush` IO path; a write rejected by the pre-checks
    (not ready, stdin unavailable, process exited) leaves the ready flag
    unchanged. -/
theorem C7_write_failure_latching (s : TransportState) (data d2 : String)
    (io io2 : WriteIO) :
    (isErrResult (SubprocessTransport.write s data io).1 = true →
      isErrResult (SubprocessTransport.write
        (SubprocessTransport.write s data io).2 d2 io2).1 = true)
    ∧ (s.ready = true → s.hasStdin = true →
       tryWaitExit s.process = none →
       isErrResult (SubprocessTransport.write s data io).1 = true →
       (SubprocessTransport.write s data io).2.ready = false) := by
  constructor
  · intro herr
    by_cases hr : s.ready
    · by_cases hs : s.hasStdin
      · cases hj : tryWaitExit s.process with
        | some code =>
          simp [SubprocessTransport.write, hr, hs, hj, isErrResult,
            process_error]
        | none =>
          cases hw : io.writeErr with
          | some e =>
            simp [SubprocessTransport.write, hr, hs, hj, hw, isErrResult,
              cli_connection_error]
          | none =>
            cases hf : io.flushErr with
            | some e =>
              simp [SubprocessTransport.write, hr, hs, hj, hw, hf,
                isErrResult, cli_connection_error]
            | none =>
              simp [SubprocessTransport.write, hr, hs, hj, hw, hf,
                isErrResult] at herr
      · simp [SubprocessTransport.write, hr, hs, isErrResult,
          cli_connection_error]
    · simp [SubprocessTransport.write, hr, isErrResult, cli_connection_error]
  · intro h1 h2 h3 herr
    cases hw : io.writeErr with
    | some e => simp [SubprocessTransport.write, h1, h2, h3, hw]
    | none =>
      cases hf : io.flushErr with
      | some e => simp [SubprocessTransport.write, h1, h2, h3, hw, hf]
      | none =>
        simp [SubprocessTransport.write, h1, h2, h3, hw, hf, isErrResult] at herr

/-- Witness for C7's amended theorem: a never-connected transport's failing
    write is followed by another failing write, and an IO flush failure on a
    ready transport clears the ready flag. -/
theorem C7_write_failure_latching_witness :
    isErrResult (SubprocessTransport.write TransportState.initial "x"
      WriteIO.ok).1 = true
    ∧ isErrResult (SubprocessTransport.write
        (SubprocessTransport.write TransportState.initial "x" WriteIO.ok).2
        "y" WriteIO.ok).1 = true
    ∧ (SubprocessTransport.write ⟨true, true, some ⟨none, []⟩, "", 0⟩ "x"
        ⟨none, some "broken pipe"⟩).2.ready = false := by
  refine ⟨rfl,
    (C7_write_failure_latching TransportState.initial "x" "y"
      WriteIO.ok WriteIO.ok).1 rfl, ?_⟩
  exact (C7_write_failure_latching ⟨true, true, some ⟨none, []⟩, "", 0⟩ "x" "y"
    ⟨none, some "broken pipe"⟩ WriteIO.ok).2 rfl rfl rfl rfl

/-- Claim C10: `read_messages` takes the child-process handle out of the
    transport: afterwards `write` can never return the process-exit
    `ProcessError` (whatever the IO oracle), `close` returns `Ok` without
    killing or waiting on the child, and a second `read_messages` yields the
    empty sequence. -/
theorem C10_read_messages_frame (fromStr fromStr2 : String → Except String JVal)
    (s : TransportState) (data : String) (io : WriteIO) :
    isProcErrResult (SubprocessTransport.write
      (SubprocessTransport.read_messages fromStr s).2 data io).1 = false
    ∧ (SubprocessTransport.close
        (SubprocessTransport.read_messages fromStr s).2).1 = .ok ()
    ∧ (SubprocessTransport.close
        (SubprocessTransport.read_messages fromStr s).2).2.2 = false
    ∧ (SubprocessTransport.read_messages fromStr2
        (SubprocessTransport.read_messages fromStr s).2).1 = [] := by
  refine ⟨?_, rfl, rfl, rfl⟩
  by_cases hr : s.ready <;> by_cases hs : s.hasStdin <;>
    cases hw : io.writeErr <;> cases hf : io.flushErr <;>
      simp [SubprocessTransport.write, SubprocessTransport.read_messages,
        tryWaitExit, hr, hs, hw, hf, isProcErrResult, cli_connection_error]

lemma collectAux_terminated (fuel : Nat) (ch : List (RsResult Message)) :
    ResponseStream.collectAux fuel ⟨true, ch⟩ = [] := by
  cases fuel <;> simp [ResponseStream.collectAux, ResponseStream.poll_next]

lemma collectAux_spec : ∀ (items : List (RsResult Message)) (fuel : Nat),
    items.length < fuel →
    ResponseStream.collectAux fuel ⟨false, items⟩
      = specResponseScopedItems items := by
  intro items
  induction items with
  | nil =>
    intro fuel h
    obtain ⟨f, rfl⟩ : ∃ f, fuel = f + 1 := ⟨fuel - 1, by omega⟩
    simp [ResponseStream.collectAux, ResponseStream.poll_next,
      specResponseScopedItems]
  | cons x rest ih =>
    intro fuel h
    obtain ⟨f, rfl⟩ : ∃ f, fuel = f + 1 := ⟨fuel - 1, by omega⟩
    have hlen : rest.length < f := by
      simp only [List.length_cons] at h
      omega
    cases x with
    | ok m =>
      by_cases hr : isResultMsg m = true
      · simp [ResponseStream.collectAux, ResponseStream.poll_next, hr,
          specResponseScopedItems, collectAux_terminated]
      · have hr2 : isResultMsg m = false := by
          simp only [Bool.not_eq_true] at hr
          exact hr
        simp [ResponseStream.collectAux, ResponseStream.poll_next, hr2,
          specResponseScopedItems, ih f hlen]
    | error e =>
      simp [ResponseStream.collectAux, ResponseStream.poll_next,
        specResponseScopedItems, ih f hlen]

/-- Claim C8: over any sequence of items delivered on the engine's outbound
    channel, `ResponseStream` yields items unchanged up to and including the
    first `Result`-kind message and then ends (so it also ends when the
    channel closes with no `Result` seen); once terminated, every poll
    returns end-of-sequence regardless of what is still in the channel. -/
theorem C8_response_stream_scoped (items : List (RsResult Message))
    (s : ResponseStreamState) :
    ResponseStream.collect items = specResponseScopedItems items
    ∧ (s.terminated = true → ResponseStream.poll_next s = (none, s)) := by
  constructor
  · exact collectAux_spec items _ (by omega)
  · intro ht
    simp [ResponseStream.poll_next, ht]

/-- Witness for C8 at a concrete channel: an assistant message, a result
    message, then another assistant message — the stream stops after the
    result; a terminated stream yields nothing. -/
theorem C8_response_stream_scoped_witness :
    ResponseStream.collect
        [.ok (.Assistant ⟨[], "m", none⟩),
         .ok (.Result ⟨"success", 0, 0, false, 0, "s", none, none, none⟩),
         .ok (.Assistant ⟨[], "m2", none⟩)]
      = [.ok (.Assistant ⟨[], "m", none⟩),
         .ok (.Result ⟨"success", 0, 0, false, 0, "s", none, none, none⟩)]
    ∧ ((⟨true, [.ok (.Assistant ⟨[], "m2", none⟩)]⟩ : ResponseStreamState).terminated = true)
    ∧ ResponseStream.poll_next ⟨true, [.ok (.Assistant ⟨[], "m2", none⟩)]⟩
      = (none, ⟨true, [.ok (.Assistant ⟨[], "m2", none⟩)]⟩) := by
  refine ⟨?_, rfl, ?_⟩
  · exact (C8_response_stream_scoped
      [.ok (.Assistant ⟨[], "m", none⟩),
       .ok (.Result ⟨"success", 0, 0, false, 0, "s", none, none, none⟩),
       .ok (.Assistant ⟨[], "m2", none⟩)] ⟨true, []⟩).1
  · exact (C8_response_stream_scoped []
      ⟨true, [.ok (.Assistant ⟨[], "m2", none⟩)]⟩).2 rfl

lemma addMatcherList_lookup (event : String) (m : HookMatcherConfig) :
    ∀ ms, assocLookup (addMatcherList ms event m) event
      = some ((assocLookup ms event).getD [] ++ [m]) := by
  intro ms
  induction ms with
  | nil => simp [addMatcherList, assocLookup]
  | cons kv rest ih =>
    obtain ⟨k, v⟩ := kv
    by_cases hk : k = event
    · simp [addMatcherList, assocLookup, hk]
    · simp [addMatcherList, assocLookup, hk, ih]

lemma matchers_foldl_eq (tool : String) :
    ∀ (ms : List HookMatcherConfig) (acc : List String),
    ms.foldl (fun acc m => if m.matches tool then acc ++ m.callback_ids else acc) acc
      = acc ++ ((ms.filter (fun m => m.matches tool)).map
          HookMatcherConfig.callback_ids).flatten := by
  intro ms
  induction ms with
  | nil => intro acc; simp
  | cons m rest ih =>
    intro acc
    by_cases hm : m.matches tool = true
    · simp [hm, ih]
    · have hm2 : m.matches tool = false := by
        simp only [Bool.not_eq_true] at hm
        exact hm
      simp [hm2, ih]

/-- Claim C9: a `"*"` matcher pattern matches any tool name, any other
    pattern matches exactly its own text, event names are looked up exactly;
    `add_matcher` appends to the event's matcher list, the matched callback
    ids are the concatenation, in matcher order, of each matching matcher's
    callback-id list, and hook execution runs those ids front to back —
    skipping unregistered ids, collecting each output in order, and aborting
    on a callback error. -/
theorem C9_hook_dispatch (c : HookMatcherConfig) (t : String)
    (ms : List (String × List HookMatcherConfig)) (event : String)
    (m : HookMatcherConfig) (mgr : HookManager) (tool : String)
    (input : List (String × JVal)) (tuid : Option String) (ctx : HookContext)
    (id : String) (rest : List String) (cb : HookCallbackFn)
    (out : HookJSONOutput) (outs : List HookJSONOutput) (e : ClaudeSDKError) :
    (c.matcher = "*" → c.matches t = true)
    ∧ (c.matcher ≠ "*" → (c.matches t = true ↔ c.matcher = t))
    ∧ assocLookup (addMatcherList ms event m) event
        = some ((assocLookup ms event).getD [] ++ [m])
    ∧ mgr.find_matching_callbacks event tool
        = ((((assocLookup mgr.matchers event).getD []).filter
            (fun mm => mm.matches tool)).map HookMatcherConfig.callback_ids).flatten
    ∧ mgr.execute_hooks event tool input tuid ctx
        = executeCallbackList mgr (mgr.find_matching_callbacks event tool)
            input tuid ctx
    ∧ executeCallbackList mgr [] input tuid ctx = .ok []
    ∧ (mgr.registry.get id = none →
        executeCallbackList mgr (id :: rest) input tuid ctx
          = executeCallbackList mgr rest input tuid ctx)
    ∧ (mgr.registry.get id = some cb → cb input tuid ctx = .ok out →
        executeCallbackList mgr rest input tuid ctx = .ok outs →
        executeCallbackList mgr (id :: rest) input tuid ctx = .ok (out :: outs))
    ∧ (mgr.registry.get id = some cb → cb input tuid ctx = .error e →
        executeCallbackList mgr (id :: rest) input tuid ctx = .error e) := by
  refine ⟨?_, ?_, addMatcherList_lookup event m ms, ?_, rfl, rfl, ?_, ?_, ?_⟩
  · intro h
    simp [HookMatcherConfig.matches, h]
  · intro h
    simp [HookMatcherConfig.matches, h]
  · unfold HookManager.find_matching_callbacks
    cases hms : assocLookup mgr.matchers event with
    | none => simp
    | some ms2 => simpa using matchers_foldl_eq tool ms2 []
  · intro hg
    simp [executeCallbackList, hg]
  · intro hg hcb hrest
    simp [executeCallbackList, hg, hcb, hrest]
  · intro hg hcb
    simp [executeCallbackList, hg, hcb]

/-- Witness for C9: concrete wildcard and exact matchers, and a concrete
    one-callback manager whose dispatch collects the callback's output. -/
theorem C9_hook_dispatch_witness :
    HookMatcherConfig.matches ⟨"*", []⟩ "Bash" = true
    ∧ (HookMatcherConfig.matches ⟨"Read", []⟩ "Bash" = true
        ↔ ("Read" : String) = "Bash")
    ∧ executeCallbackList
        ⟨⟨[("hook_0", fun _ _ _ => .ok ⟨some "block", none, none⟩)], 1⟩,
         [("PreToolUse", [⟨"*", ["hook_0"]⟩])]⟩
        ["hook_0"] [] none ⟨none⟩
      = .ok [⟨some "block", none, none⟩] := by
  refine ⟨?_, ?_, ?_⟩
  · exact (C9_hook_dispatch ⟨"*", []⟩ "Bash" [] "" ⟨"", []⟩
      ⟨⟨[], 0⟩, []⟩ "" [] none ⟨none⟩ "" [] (fun _ _ _ => .ok ⟨none, none, none⟩)
      ⟨none, none, none⟩ [] (.CLIConnectionError "")).1 rfl
  · exact (C9_hook_dispatch ⟨"Read", []⟩ "Bash" [] "" ⟨"", []⟩
      ⟨⟨[], 0⟩, []⟩ "" [] none ⟨none⟩ "" [] (fun _ _ _ => .ok ⟨none, none, none⟩)
      ⟨none, none, none⟩ [] (.CLIConnectionError "")).2.1 (by decide)
  · exact (C9_hook_dispatch ⟨"*", []⟩ "Bash" [] "" ⟨"", []⟩
      ⟨⟨[("hook_0", fun _ _ _ => .ok ⟨some "block", none, none⟩)], 1⟩,
       [("PreToolUse", [⟨"*", ["hook_0"]⟩])]⟩
      "" [] none ⟨none⟩ "hook_0" [] (fun _ _ _ => .ok ⟨some "block", none, none⟩)
      ⟨some "block", none, none⟩ [] (.CLIConnectionError "")).2.2.2.2.2.2.2.1
      rfl rfl rfl

lemma readerStep_stopped (c : Bool) (s : ReaderState) (hs : s.stopped = true)
    (item : RsResult JVal) : readerStep c s item = s := by
  simp [readerStep, hs]

lemma readerRun_stopped (c : Bool) : ∀ (items : List (RsResult JVal))
    (s : ReaderState), s.stopped = true → readerRun c s items = s := by
  intro items
  induction items with
  | nil => intro s hs; rfl
  | cons x rest ih =>
    intro s hs
    show readerRun c (readerStep c s x) rest = s
    rw [readerStep_stopped c s hs, ih s hs]

/-- Claim C1: for a decoded `control_response` handled by the reader task,
    a `success` response with a pending match removes that entry and fulfils
    its slot with the success payload — where an absent payload becomes the
    empty JSON object — an `error` response removes the entry and fulfils the
    slot with a connection failure carrying the error text, and a response
    whose `request_id` matches no pending entry leaves the whole reader state
    (pending table and message stream included) unchanged. -/
theorem C1_control_response_routing (c : Bool) (s : ReaderState) (v : JVal)
    (ctrl : SDKControlResponse) (hstop : s.stopped = false)
    (htype : (v.get? "type").bind JVal.asStr = some "control_response")
    (hdec : decodeSDKControlResponse v = some ctrl) :
    (∀ rid payload tx rest, ctrl.response = .Success rid payload →
      tableRemove s.pending rid = (some tx, rest) →
      readerStep c s (.ok v)
        = { s with pending := rest,
                   fulfilled := s.fulfilled
                     ++ [(tx, .ok (successPayload payload))] })
    ∧ successPayload none = .obj []
    ∧ (∀ rid err tx rest, ctrl.response = .Error rid err →
      tableRemove s.pending rid = (some tx, rest) →
      readerStep c s (.ok v)
        = { s with pending := rest,
                   fulfilled := s.fulfilled
                     ++ [(tx, .error (cli_connection_error err))] })
    ∧ (∀ rid payload rest, ctrl.response = .Success rid payload →
      tableRemove s.pending rid = (none, rest) →
      readerStep c s (.ok v) = s)
    ∧ (∀ rid err rest, ctrl.response = .Error rid err →
      tableRemove s.pending rid = (none, rest) →
      readerStep c s (.ok v) = s) := by
  refine ⟨?_, rfl, ?_, ?_, ?_⟩
  · intro rid payload tx rest hresp hrem
    simp [readerStep, hstop, htype, readerCtrlResponse, hdec, hresp, hrem]
  · intro rid err tx rest hresp hrem
    simp [readerStep, hstop, htype, readerCtrlResponse, hdec, hresp, hrem]
  · intro rid payload rest hresp hrem
    simp [readerStep, hstop, htype, readerCtrlResponse, hdec, hresp, hrem]
  · intro rid err rest hresp hrem
    simp [readerStep, hstop, htype, readerCtrlResponse, hdec, hresp, hrem]

/-- Witness for C1: a concrete success response for `req_1` against a table
    holding `req_1`, and the same response against a table holding only
    `req_2` (no match, state unchanged). -/
theorem C1_control_response_routing_witness :
    ((⟨[("req_1", 7)], [], [], [], false⟩ : ReaderState).stopped = false)
    ∧ decodeSDKControlResponse
        (.obj [("type", .str "control_response"),
               ("response", .obj [("subtype", .str "success"),
                                  ("request_id", .str "req_1")])])
        = some ⟨"control_response", .Success "req_1" none⟩
    ∧ readerStep false ⟨[("req_1", 7)], [], [], [], false⟩
        (.ok (.obj [("type", .str "control_response"),
                    ("response", .obj [("subtype", .str "success"),
                                       ("request_id", .str "req_1")])]))
        = ⟨[], [(7, .ok (.obj []))], [], [], false⟩
    ∧ readerStep false ⟨[("req_2", 8)], [], [], [], false⟩
        (.ok (.obj [("type", .str "control_response"),
                    ("response", .obj [("subtype", .str "success"),
                                       ("request_id", .str "req_1")])]))
        = ⟨[("req_2", 8)], [], [], [], false⟩ := by
  refine ⟨rfl, rfl, ?_, ?_⟩
  · exact (C1_control_response_routing false ⟨[("req_1", 7)], [], [], [], false⟩
      (.obj [("type", .str "control_response"),
             ("response", .obj [("subtype", .str "success"),
                                ("request_id", .str "req_1")])])
      ⟨"control_response", .Success "req_1" none⟩ rfl rfl rfl).1
      "req_1" none 7 [] rfl rfl
  · exact (C1_control_response_routing false ⟨[("req_2", 8)], [], [], [], false⟩
      (.obj [("type", .str "control_response"),
             ("response", .obj [("subtype", .str "success"),
                                ("request_id", .str "req_1")])])
      ⟨"control_response", .Success "req_1" none⟩ rfl rfl rfl).2.2.2.1
      "req_1" none [("req_2", 8)] rfl rfl

/-- Claim C4: a value tagged `control_response` or `control_request` that
    fails to decode into the control-envelope shape is skipped — the run over
    the remaining items proceeds from an unchanged state — whereas a plain
    value (any other type tag, or no string type tag at all) rejected by the
    message parser makes the parse error the final delivered item, stops the
    reader loop, and suppresses everything after it. -/
theorem C4_malformed_handling (c : Bool) (s : ReaderState) (v : JVal)
    (rest : List (RsResult JVal)) (e : ClaudeSDKError) :
    (s.stopped = false → (v.get? "type").bind JVal.asStr = some "control_response" →
      decodeSDKControlResponse v = none →
      readerRun c s (.ok v :: rest) = readerRun c s rest)
    ∧ (s.stopped = false → (v.get? "type").bind JVal.asStr = some "control_request" →
      decodeSDKControlRequest v = none →
      readerRun c s (.ok v :: rest) = readerRun c s rest)
    ∧ (s.stopped = false →
      (∀ ty, (v.get? "type").bind JVal.asStr = some ty →
        ty ≠ "control_response" ∧ ty ≠ "control_request") →
      parse_message v = .error e →
      readerRun c s (.ok v :: rest)
        = { s with messages := s.messages ++ [.error e], stopped := true }) := by
  refine ⟨?_, ?_, ?_⟩
  · intro hstop htype hdec
    show readerRun c (readerStep c s (.ok v)) rest = readerRun c s rest
    have hstep : readerStep c s (.ok v) = s := by
      simp [readerStep, hstop, htype, readerCtrlResponse, hdec]
    rw [hstep]
  · intro hstop htype hdec
    show readerRun c (readerStep c s (.ok v)) rest = readerRun c s rest
    have hstep : readerStep c s (.ok v) = s := by
      simp [readerStep, hstop, htype, readerCtrlRequest, hdec]
    rw [hstep]
  · intro hstop hother hparse
    show readerRun c (readerStep c s (.ok v)) rest = _
    have hstep : readerStep c s (.ok v)
        = { s with messages := s.messages ++ [.error e], stopped := true } := by
      cases hty : (v.get? "type").bind JVal.asStr with
      | none => simp [readerStep, hstop, hty, readerPlain, hparse]
      | some ty =>
        obtain ⟨h1, h2⟩ := hother ty hty
        simp [readerStep, hstop, hty, h1, h2, readerPlain, hparse]
    rw [hstep, readerRun_stopped c rest _ rfl]

/-- Witness for C4: a `control_response` missing its `response` field is
    skipped and the run continues with the rest; a plain value with the
    unknown tag `bogus` ends the run with the parse error as the only
    delivered message even though a well-formed system message follows. -/
theorem C4_malformed_handling_witness :
    readerRun false ⟨[], [], [], [], false⟩
        [.ok (.obj [("type", .str "control_response")]),
         .ok (.obj [("type", .str "system"), ("subtype", .str "init")])]
      = readerRun false ⟨[], [], [], [], false⟩
        [.ok (.obj [("type", .str "system"), ("subtype", .str "init")])]
    ∧ readerRun false ⟨[], [], [], [], false⟩
        [.ok (.obj [("type", .str "bogus")]),
         .ok (.obj [("type", .str "system"), ("subtype", .str "init")])]
      = ⟨[], [],
          [.error (message_parse_error "Unknown message type: bogus"
            (some (.obj [("type", .str "bogus")])))], [], true⟩ := by
  constructor
  · exact (C4_malformed_handling false ⟨[], [], [], [], false⟩
      (.obj [("type", .str "control_response")])
      [.ok (.obj [("type", .str "system"), ("subtype", .str "init")])]
      (.CLIConnectionError "")).1 rfl rfl rfl
  · exact (C4_malformed_handling false ⟨[], [], [], [], false⟩
      (.obj [("type", .str "bogus")])
      [.ok (.obj [("type", .str "system"), ("subtype", .str "init")])]
      (message_parse_error "Unknown message type: bogus"
        (some (.obj [("type", .str "bogus")])))).2.2 rfl
      (by
        intro ty hty
        simp [JVal.get?, lookupField, JVal.asStr] at hty
        subst hty
        exact ⟨by decide, by decide⟩)
      rfl

lemma sendMany_ids : ∀ (reqs : List JVal) (c : Nat)
    (pend : List (String × Nat)) (slot : Nat) (wr : List JVal), c < 2 ^ 64 →
    (sendMany ⟨c, pend, slot, wr⟩ reqs).2
      = (List.range reqs.length).map
          (fun i => "req_" ++ rustDec ((c + i + 1) % 2 ^ 64)) := by
  intro reqs
  induction reqs with
  | nil => intros; rfl
  | cons r rest ih =>
    intro c pend slot wr hc
    have hlt : (c + 1) % 2 ^ 64 < 2 ^ 64 := Nat.mod_lt _ (by positivity)
    show ("req_" ++ rustDec ((c + 1) % 2 ^ 64))
        :: (sendMany ⟨(c + 1) % 2 ^ 64, _, _, _⟩ rest).2 = _
    rw [ih ((c + 1) % 2 ^ 64) _ _ _ hlt]
    rw [List.length_cons, List.range_succ_eq_map, List.map_cons, List.map_map]
    simp only [List.cons.injEq]
    refine ⟨by norm_num, ?_⟩
    apply List.map_congr_left
    intro i _
    have harg : ((c + 1) % 2 ^ 64 + i + 1) % 2 ^ 64
        = (c + Nat.succ i + 1) % 2 ^ 64 := by
      conv_lhs => rw [Nat.add_assoc, Nat.mod_add_mod]
      congr 1
      omega
    simp only [Function.comp]
    rw [harg]

lemma sendMany_ids_distinct (reqs : List JVal) (h : reqs.length ≤ 2 ^ 64) :
    (sendMany EngineState.initial reqs).2.Pairwise (· ≠ ·) := by
  have h0 : (0 : Nat) < 2 ^ 64 := by positivity
  rw [show EngineState.initial = ⟨0, [], 0, []⟩ from rfl,
    sendMany_ids reqs 0 [] 0 [] h0, List.pairwise_map]
  have hp : (List.range reqs.length).Pairwise (· < ·) := List.pairwise_lt_range _
  refine hp.imp_of_mem ?_
  intro a b ha hb hab heq
  have hbn : b < reqs.length := List.mem_range.mp hb
  have h1 := rustDec_injective (string_append_left_cancel heq)
  rcases Nat.lt_or_ge (b + 1) (2 ^ 64) with hblt | hbge
  · rw [Nat.mod_eq_of_lt (by omega), Nat.mod_eq_of_lt (by omega)] at h1
    omega
  · have hbeq : b + 1 = 2 ^ 64 := by omega
    rw [Nat.mod_eq_of_lt (by omega)] at h1
    rw [show 0 + b + 1 = 2 ^ 64 by omega, Nat.mod_self] at h1
    omega

/-- Claim C2: every `send_control_request` first inserts the fresh reply slot
    into the pending table and only then writes the envelope; the allocated
    correlation id is `req_` followed by the incremented counter; issuing a
    batch of requests on a fresh engine (increments serialized by the
    counter's lock) produces `req_1, req_2, ...` in order, pairwise distinct
    for any humanly reachable number of requests (at most `2^64`, the
    counter's width). -/
theorem C2_correlation_ids (st : EngineState) (request : JVal)
    (reqs : List JVal) :
    (send_control_request st request).2.2
      = [.insertSlot (send_control_request st request).2.1,
         .writeLine (controlEnvelope (send_control_request st request).2.1
           request)]
    ∧ (send_control_request st request).2.1
      = "req_" ++ rustDec ((st.counter + 1) % 2 ^ 64)
    ∧ (sendMany EngineState.initial reqs).2
      = (List.range reqs.length).map
          (fun i => "req_" ++ rustDec ((i + 1) % 2 ^ 64))
    ∧ (reqs.length ≤ 2 ^ 64 →
        (sendMany EngineState.initial reqs).2.Pairwise (· ≠ ·)) := by
  refine ⟨rfl, rfl, ?_, sendMany_ids_distinct reqs⟩
  rw [show EngineState.initial = ⟨0, [], 0, []⟩ from rfl,
    sendMany_ids reqs 0 [] 0 [] (by positivity)]
  apply List.map_congr_left
  intro i _
  congr 2
  omega

/-- Witness for C2: two requests on a fresh engine get the distinct ids
    `req_1` and `req_2`. -/
theorem C2_correlation_ids_witness :
    ([JVal.null, JVal.null].length ≤ 2 ^ 64)
    ∧ (sendMany EngineState.initial [JVal.null, JVal.null]).2 = ["req_1", "req_2"]
    ∧ (sendMany EngineState.initial [JVal.null, JVal.null]).2.Pairwise (· ≠ ·) := by
  refine ⟨by norm_num, ?_, (C2_correlation_ids EngineState.initial .null
    [JVal.null, JVal.null]).2.2.2 (by norm_num)⟩
  have h := (C2_correlation_ids EngineState.initial .null
    [JVal.null, JVal.null]).2.2.1
  rw [h]
  decide

/-- Claim C3: for every issued control request, the 30-second race on the
    reply slot ends in exactly one of fulfilled or timed-out (assuming the
    engine is not dropped, so the oneshot sender is never closed); a timeout
    surfaces as the connection error `Control request timeout`, and the
    pending-table entry installed by the send is still present after a
    timeout — it is removed only by a later matching response in the reader. -/
theorem C3_control_request_timeout (st : EngineState) (request : JVal)
    (ev : ReplyOracle) (hlive : ∀ t, ev ≠ some (t, none)) :
    ((∃ r, awaitOutcome ev = .fulfilled r) ∨ awaitOutcome ev = .timedOut)
    ∧ (∀ r, awaitOutcome ev = .fulfilled r → awaitOutcome ev ≠ .timedOut)
    ∧ (awaitOutcome ev = .timedOut →
        (sendAndAwait st request ev).2
          = .error (cli_connection_error "Control request timeout")
        ∧ ((send_control_request st request).2.1, st.nextSlot)
            ∈ (sendAndAwait st request ev).1.pending) := by
  refine ⟨?_, ?_, ?_⟩
  · match ev with
    | none => exact Or.inr rfl
    | some (t, none) => exact absurd rfl (hlive t)
    | some (t, some r) =>
      by_cases ht : t ≤ 30
      · exact Or.inl ⟨r, by simp [awaitOutcome, ht]⟩
      · exact Or.inr (by simp [awaitOutcome, ht])
  · intro r h1 h2
    rw [h1] at h2
    exact AwaitOutcome.noConfusion h2
  · intro ht
    constructor
    · simp [sendAndAwait, awaitReply, ht]
    · simp only [sendAndAwait, send_control_request]
      exact List.mem_append_right _ (List.mem_singleton_self _)

/-- Witness for C3: an oracle that never fulfils the slot times out with the
    connection-timeout error while `req_1` stays in the pending table. -/
theorem C3_control_request_timeout_witness :
    (∀ t, (none : ReplyOracle) ≠ some (t, none))
    ∧ (sendAndAwait EngineState.initial .null none).2
        = .error (cli_connection_error "Control request timeout")
    ∧ ("req_1", 0) ∈ (sendAndAwait EngineState.initial .null none).1.pending := by
  have hl : ∀ t, (none : ReplyOracle) ≠ some (t, none) :=
    fun t h => Option.noConfusion h
  have h := (C3_control_request_timeout EngineState.initial .null none hl).2.2 rfl
  exact ⟨hl, h.1, h.2⟩

end ClaudeRs
